import Mathlib

set_option maxRecDepth 400000

/-!
# EcotrackCarbonFootprintTracker — verification of the validation/calculation core

Shallow embedding of the input-validation and emission-calculation pipeline of
the repository (files app.py and app1.py).

Numbers: Python floats are IEEE-754 binary64 values.  Every finite binary64
value is a dyadic rational m · 2^e, so we represent a float by the pair
(m, e) : Int × Int in canonical form (m odd, or (0, 0)), and we model each
float operation as the exact rational operation followed by correct rounding
(round-to-nearest, ties-to-even, with gradual underflow to zero).  Overflow to
infinity is not separately represented: an overflowed value is kept as its
exact (huge) dyadic, which compares identically against the bounds 0, 99999,
10000 and 100000 used by the code, so every branch decision in the embedded
code agrees with the real float semantics.  The interpretation of a pair as a
rational number is `dyVal`.

Strings: Python strings are embedded as `List Char`.  `str.strip()` and the
regular expressions used by the code are modeled character by character; the
character classes `\d` and `\s` are taken as their ASCII parts (the inputs the
spec and the tests discuss are ASCII).
-/

/-- Fuel-driven floor of log2: `logTwoAux f n` is ⌊log2 n⌋ for n ≥ 1 whenever
the fuel `f` is at least n (structural recursion so that the kernel can
evaluate it). -/
def logTwoAux : Nat → Nat → Nat
  | 0, _ => 0
  | f+1, n => if n ≤ 1 then 0 else logTwoAux f (n / 2) + 1

/-- ⌊log2 n⌋ for n ≥ 1 (0 for n = 0). -/
def natLogTwo (n : Nat) : Nat := logTwoAux n n

/-- Nearest integer to a/b for b > 0, ties to even (the IEEE-754 default
rounding).  Uses floor division, so it is correct for negative a as well. -/
def rneDiv (a : Int) (b : Nat) : Int :=
  let q := Int.fdiv a b
  let r := a - q * b
  if 2 * r < (b : Int) then q
  else if (b : Int) < 2 * r then q + 1
  else if q % 2 = 0 then q else q + 1

/-- A dyadic rational m · 2^e, the exact value of a finite binary64 float. -/
abbrev Dy := Int × Int

/-- Strip factors of two from the mantissa (fuel-driven; the fuel |m| is
always enough since 2-adic valuation of m is below its bit length). -/
def canonAux : Nat → Int → Int → Dy
  | 0, m, e => (m, e)
  | f+1, m, e => if m % 2 = 0 then canonAux f (m / 2) (e + 1) else (m, e)

/-- Canonical form of m · 2^e: mantissa odd, or (0, 0).  Two canonical pairs
are equal iff they denote the same rational. -/
def dyCanon (m : Int) (e : Int) : Dy :=
  if m = 0 then (0, 0) else canonAux m.natAbs m e

/-- Round the exact rational num/den (den > 0) to the nearest binary64 value
(ties to even), returned as a canonical dyadic pair.  The exponent is located
by scaling with 2^1100, which covers the whole binary64 range including all
subnormals (spacing 2^-1074); anything below 2^-1100 correctly flushes to
zero. -/
def ddRound (num : Int) (den : Nat) : Dy :=
  if num = 0 then (0, 0)
  else
    let e : Int := (natLogTwo (num.natAbs * 2 ^ 1100 / den) : Int) - 1100
    let s : Int := max (e - 52) (-1074)
    let m : Int :=
      if 0 ≤ s then rneDiv num (den * 2 ^ s.toNat)
      else rneDiv (num * 2 ^ (-s).toNat) den
    dyCanon m s

/-- Round the exact dyadic m · 2^e to the nearest binary64 value. -/
def roundDyadic (m e : Int) : Dy :=
  if 0 ≤ e then ddRound (m * 2 ^ e.toNat) 1 else ddRound m (2 ^ (-e).toNat)

/-- IEEE-754 binary64 multiplication: exact product, then correct rounding. -/
def fmulD (a b : Dy) : Dy := roundDyadic (a.1 * b.1) (a.2 + b.2)

/-- Comparison a ≤ b of two dyadics (floats compare by exact value). -/
def dyLeB (a b : Dy) : Bool :=
  decide (a.1 * 2 ^ (a.2 - min a.2 b.2).toNat ≤ b.1 * 2 ^ (b.2 - min a.2 b.2).toNat)

/-- Comparison a < b of two dyadics. -/
def dyLtB (a b : Dy) : Bool :=
  decide (a.1 * 2 ^ (a.2 - min a.2 b.2).toNat < b.1 * 2 ^ (b.2 - min a.2 b.2).toNat)

/-- The rational number denoted by a dyadic pair. -/
def dyVal (a : Dy) : ℚ := (a.1 : ℚ) * (2 : ℚ) ^ a.2

/-- app.py line 17: EMISSION_FACTOR_KWH = 0.37 (the binary64 value of the
decimal literal 0.37). -/
def EMISSION_FACTOR_KWH : Dy := ddRound 37 100

/-- ASCII part of Python str.isspace (space, TAB, LF, VT, FF, CR), the
whitespace stripped by str.strip(). -/
def isSpaceCh (c : Char) : Bool :=
  c = ' ' || c = '\t' || c = '\n' || c = '\r' || c = '\x0b' || c = '\x0c'

/-- Python str.strip(): remove leading and trailing whitespace. -/
def pyStrip (cs : List Char) : List Char :=
  ((cs.dropWhile isSpaceCh).reverse.dropWhile isSpaceCh).reverse

/-- Split off the longest leading run of ASCII digits. -/
def takeDigits : List Char → List Char × List Char
  | [] => ([], [])
  | c :: t =>
    if Char.isDigit c then
      let p := takeDigits t
      (c :: p.1, p.2)
    else ([], c :: t)

/-- All characters are ASCII digits. -/
def allDigits (cs : List Char) : Bool := cs.all Char.isDigit

/-- Numeric value of a digit string (most significant first). -/
def digitsToNat (cs : List Char) : Nat :=
  cs.foldl (fun a c => a * 10 + (c.toNat - 48)) 0

/-- re.fullmatch of \d+(?:\.\d+)? : one or more digits, optionally followed
by a dot and one or more digits. -/
def matchUnsignedNum (cs : List Char) : Bool :=
  match takeDigits cs with
  | (ip, []) => !ip.isEmpty
  | (ip, c :: rest) => !ip.isEmpty && c = '.' && !rest.isEmpty && allDigits rest

/-- re.fullmatch(r"-?\d+(?:\.\d+)?", s): the plain-decimal-number pattern the
validator checks before parsing (app.py line 85, app1.py line 1057). -/
def matchNumber (cs : List Char) : Bool :=
  match cs with
  | [] => false
  | c :: rest => if c = '-' then matchUnsignedNum rest else matchUnsignedNum (c :: rest)

/-- Exact rational value (numerator, positive denominator) of an unsigned
decimal string: digits with an optional fractional part, where at least one
side of the dot is nonempty.  none when the shape does not match. -/
def decUnsignedVal (cs : List Char) : Option (Int × Nat) :=
  match takeDigits cs with
  | (ip, []) => if ip.isEmpty then none else some ((digitsToNat ip : Int), 1)
  | (ip, c :: rest) =>
    if c = '.' then
      match takeDigits rest with
      | (fp, []) =>
        if ip.isEmpty && fp.isEmpty then none
        else some (((digitsToNat ip * 10 ^ fp.length + digitsToNat fp : Nat) : Int),
                    10 ^ fp.length)
      | _ => none
    else none

/-- Python float(s) on a plain decimal string: parse the exact decimal value
and round it to the nearest binary64.  Models CPython's correctly-rounded
string-to-double conversion on the sublanguage of signed plain decimals; the
further literal forms float() accepts (exponents, inf/nan, underscores,
surrounding whitespace) cannot reach the conversion in the embedded code
because the pattern check runs first.  none models a ValueError. -/
def pyFloat (cs : List Char) : Option Dy :=
  match cs with
  | [] => none
  | c :: rest =>
    if c = '-' then (decUnsignedVal rest).map (fun p => ddRound (-p.1) p.2)
    else if c = '+' then (decUnsignedVal rest).map (fun p => ddRound p.1 p.2)
    else (decUnsignedVal (c :: rest)).map (fun p => ddRound p.1 p.2)

/-- Case-insensitive substring test: needle occurs in hay (both mapped to
ASCII lower case), the effect of re.search with re.IGNORECASE on a literal
pattern. -/
def hasSubList (needle hay : List Char) : Bool :=
  match hay with
  | [] => needle.isEmpty
  | _ :: t => needle.isPrefixOf hay || hasSubList needle t

/-- re.search(pat, s, re.IGNORECASE) for a literal pattern pat. -/
def containsCI (needle : String) (hay : List Char) : Bool :=
  hasSubList (needle.data.map Char.toLower) (hay.map Char.toLower)

/-- app1.py line 1047: re.search([<>"\']|script|alert|onerror, s, IGNORECASE),
the XSS screening pattern. -/
def xssScreen (cs : List Char) : Bool :=
  cs.any (fun c => c = '<' || c = '>' || c = '"' || c = Char.ofNat 39)
  || containsCI "script" cs || containsCI "alert" cs || containsCI "onerror" cs

/-- app1.py line 1052: re.search((--|;|/*|*/|xp_|sp_|DROP|INSERT|DELETE|UPDATE),
s, IGNORECASE), the SQL-injection screening pattern. -/
def sqlScreen (cs : List Char) : Bool :=
  containsCI "--" cs || containsCI ";" cs || containsCI "/*" cs
  || containsCI "*/" cs || containsCI "xp_" cs || containsCI "sp_" cs
  || containsCI "drop" cs || containsCI "insert" cs || containsCI "delete" cs
  || containsCI "update" cs

/-- Decidable equality for embedded Except results. -/
instance {e a : Type} [DecidableEq e] [DecidableEq a] : DecidableEq (Except e a) := fun x y =>
  match x, y with
  | .ok u, .ok w =>
    if h : u = w then .isTrue (by rw [h]) else .isFalse (fun hc => h (Except.ok.inj hc))
  | .ok _, .error _ => .isFalse (fun hc => Except.noConfusion hc)
  | .error _, .ok _ => .isFalse (fun hc => Except.noConfusion hc)
  | .error u, .error w =>
    if h : u = w then .isTrue (by rw [h]) else .isFalse (fun hc => h (Except.error.inj hc))

namespace App

/-- app.py lines 70-111, validate_kwh_input: empty check, plain-decimal
pattern check, float conversion, ≤ 0 check, > 99999 check; returns the
Python triple (is_valid, error_message, kwh_value).  The none branch of the
pyFloat match is the except (ValueError, TypeError) handler (Path 6). -/
def validate_kwh_input (s : List Char) : Bool × Option String × Option Dy :=
  if s.isEmpty || (pyStrip s).isEmpty then (false, some "Please enter a value.", none)
  else if !(matchNumber (pyStrip s)) then (false, some "Please enter a valid number.", none)
  else
    match pyFloat (pyStrip s) with
    | none => (false, some "Please enter a valid number.", none)
    | some kwh =>
      if dyLeB kwh (0, 0) then (false, some "Value must be greater than 0.", none)
      else if dyLtB (99999, 0) kwh then (false, some "Value cannot exceed 99,999.", none)
      else (true, none, some kwh)

/-- validate_kwh_input with the except-handler branch replaced by a marker
output: proving it equal to validate_kwh_input on every input shows the
float-conversion failure branch is unreachable. -/
def validate_kwh_input_noexc (s : List Char) : Bool × Option String × Option Dy :=
  if s.isEmpty || (pyStrip s).isEmpty then (false, some "Please enter a value.", none)
  else if !(matchNumber (pyStrip s)) then (false, some "Please enter a valid number.", none)
  else
    match pyFloat (pyStrip s) with
    | none => (false, some "unreachable: float() failed after pattern match", none)
    | some kwh =>
      if dyLeB kwh (0, 0) then (false, some "Value must be greater than 0.", none)
      else if dyLtB (99999, 0) kwh then (false, some "Value cannot exceed 99,999.", none)
      else (true, none, some kwh)

/-- app.py lines 113-118: calculate_co2_emission, kwh * EMISSION_FACTOR_KWH
as one binary64 multiplication. -/
def calculate_co2_emission (kwh : Dy) : Dy := fmulD kwh EMISSION_FACTOR_KWH

/-- app.py lines 247-263, the POST branch of the calculator route, given the
outcome of the history insert (saveOk).  Output: (error, result, flashes),
each flash a (message, category) pair.  On save failure the result is still
rendered and a warning flash informs the user. -/
def calculator_post (s : List Char) (saveOk : Bool) :
    Option String × Option Dy × List (String × String) :=
  match validate_kwh_input s with
  | (false, msg, _) => (msg, none, [])
  | (true, _, some kwh) =>
    let result := calculate_co2_emission kwh
    if saveOk then (none, some result, [("Calculation saved to your history!", "success")])
    else (none, some result, [("Calculation completed but could not be saved to history.", "warning")])
  | (true, _, none) => (none, none, [])

end App

namespace App1

/-- app1.py lines 1033-1078, validate_kwh_input: like the app.py version but
with two extra screening steps between the trim and the numeric pattern
check: an XSS screen and a SQL-injection screen, each rejecting with
"Invalid input detected.". -/
def validate_kwh_input (s : List Char) : Bool × Option String × Option Dy :=
  if s.isEmpty || (pyStrip s).isEmpty then (false, some "Please enter a value.", none)
  else if xssScreen (pyStrip s) then (false, some "Invalid input detected.", none)
  else if sqlScreen (pyStrip s) then (false, some "Invalid input detected.", none)
  else if !(matchNumber (pyStrip s)) then (false, some "Please enter a valid number.", none)
  else
    match pyFloat (pyStrip s) with
    | none => (false, some "Please enter a valid number.", none)
    | some kwh =>
      if dyLeB kwh (0, 0) then (false, some "Value must be greater than 0.", none)
      else if dyLtB (99999, 0) kwh then (false, some "Value cannot exceed 99,999.", none)
      else (true, none, some kwh)

/-- app1.py validate_kwh_input with the except-handler branch replaced by a
marker output (see App.validate_kwh_input_noexc). -/
def validate_kwh_input_noexc (s : List Char) : Bool × Option String × Option Dy :=
  if s.isEmpty || (pyStrip s).isEmpty then (false, some "Please enter a value.", none)
  else if xssScreen (pyStrip s) then (false, some "Invalid input detected.", none)
  else if sqlScreen (pyStrip s) then (false, some "Invalid input detected.", none)
  else if !(matchNumber (pyStrip s)) then (false, some "Please enter a valid number.", none)
  else
    match pyFloat (pyStrip s) with
    | none => (false, some "unreachable: float() failed after pattern match", none)
    | some kwh =>
      if dyLeB kwh (0, 0) then (false, some "Value must be greater than 0.", none)
      else if dyLtB (99999, 0) kwh then (false, some "Value cannot exceed 99,999.", none)
      else (true, none, some kwh)

/-- One record of a calculator instance's private _calculation_history
(app1.py lines 420-427); the timestamp is the datetime.now() value, passed
in as a parameter of the embedding. -/
structure HistRecord where
  input : Dy
  output : Dy
  timestamp : Nat
  calculator_type : String
deriving DecidableEq

/-- The heap of Python list objects holding calculation histories: address r
holds the list at position r.  get_history allocates a fresh list (a copy),
so mutating it cannot touch the instance's own list. -/
abbrev Store := List (List HistRecord)

/-- Contents of the list object at address r (the empty list for a dangling
address, which never occurs for instances created by the constructors). -/
def storeGet : Store → Nat → List HistRecord
  | [], _ => []
  | l :: _, 0 => l
  | _ :: t, r+1 => storeGet t r

/-- In-place mutation of the list object at address r. -/
def storeSet : Store → Nat → List HistRecord → Store
  | [], _, _ => []
  | _ :: t, 0, l => l :: t
  | x :: t, r+1, l => x :: storeSet t r l

/-- An ElectricityEmissionCalculator instance (app1.py lines 429-459):
emission factor 0.37, bounds min_kwh = 0 and max_kwh = 99999, and the address
of its private _calculation_history list. -/
structure ElecObj where
  emission_factor : Dy
  max_kwh : Dy
  min_kwh : Dy
  histRef : Nat
deriving DecidableEq

/-- ElectricityEmissionCalculator(): fresh instance with an empty history
list appended to the heap. -/
def elec_new (st : Store) : ElecObj × Store :=
  (⟨ddRound 37 100, (99999, 0), (0, 0), st.length⟩, st ++ [[]])

/-- app1.py lines 440-448, ElectricityEmissionCalculator.validate_input.
The isinstance check cannot fail in the embedding (inputs are numbers by
type); the two range checks raise ValueError with the messages shown. -/
def elec_validate_input (c : ElecObj) (v : Dy) : Except String Bool :=
  if dyLeB v c.min_kwh then .error "Value must be greater than 0"
  else if dyLtB c.max_kwh v then .error "Value cannot exceed 99999"
  else .ok true

/-- app1.py lines 450-455, ElectricityEmissionCalculator.calculate:
validate, multiply by the instance's factor, append one record to the
instance's history list (via _record_calculation), return the result. -/
def elec_calculate_st (c : ElecObj) (st : Store) (v : Dy) (now : Nat) :
    Except String (Dy × Store) :=
  match elec_validate_input c v with
  | .error e => .error e
  | .ok _ =>
    let result := fmulD v c.emission_factor
    .ok (result, storeSet st c.histRef
          (storeGet st c.histRef ++ [⟨v, result, now, "ElectricityEmissionCalculator"⟩]))

/-- app1.py lines 416-418, EmissionCalculator.get_history: return
self._calculation_history.copy() — modeled as allocating a fresh list object
with the same contents and returning its address. -/
def get_history (c : ElecObj) (st : Store) : Nat × Store :=
  (st.length, st ++ [storeGet st c.histRef])

/-- Result value of a calculate call on a fresh
ElectricityEmissionCalculator() (the web routes construct a new instance per
request, so the history heap is private to the call). -/
def elec_calculate (v : Dy) : Except String Dy :=
  Except.map (fun p => p.1)
    (elec_calculate_st (elec_new []).1 (elec_new []).2 v 0)

/-- app1.py lines 464-470, TransportEmissionCalculator.VEHICLE_FACTORS as a
lookup: car 0.21, bus 0.089, train 0.041, bike 0.0, electric_car 0.05. -/
def VEHICLE_FACTORS (t : String) : Option Dy :=
  if t = "car" then some (ddRound 21 100)
  else if t = "bus" then some (ddRound 89 1000)
  else if t = "train" then some (ddRound 41 1000)
  else if t = "bike" then some (0, 0)
  else if t = "electric_car" then some (ddRound 5 100)
  else none

/-- app1.py line 473: factor = self.VEHICLE_FACTORS.get(vehicle_type, 0.21) —
an unrecognized vehicle type silently falls back to the car factor 0.21. -/
def transportFactor (t : String) : Dy := (VEHICLE_FACTORS t).getD (ddRound 21 100)

/-- app1.py lines 477-485, TransportEmissionCalculator.validate_input:
distance must be ≥ 0 (zero allowed) and ≤ 10000. -/
def transport_validate_input (v : Dy) : Except String Bool :=
  if dyLtB v (0, 0) then .error "Distance cannot be negative"
  else if dyLtB (10000, 0) v then .error "Distance too large"
  else .ok true

/-- app1.py lines 487-492, TransportEmissionCalculator.calculate on a fresh
TransportEmissionCalculator(vehicle_type) (result value only; the recording
is as in elec_calculate_st). -/
def transport_calculate (t : String) (v : Dy) : Except String Dy :=
  match transport_validate_input v with
  | .error e => .error e
  | .ok _ => .ok (fmulD v (transportFactor t))

/-- app1.py lines 500-507, WaterEmissionCalculator.validate_input: volume
must be > 0 (zero rejected) and ≤ 100000. -/
def water_validate_input (v : Dy) : Except String Bool :=
  if dyLeB v (0, 0) then .error "Value must be positive"
  else if dyLtB (100000, 0) v then .error "Value too large"
  else .ok true

/-- app1.py lines 509-513, WaterEmissionCalculator.calculate on a fresh
WaterEmissionCalculator() (factor 0.0015). -/
def water_calculate (v : Dy) : Except String Dy :=
  match water_validate_input v with
  | .error e => .error e
  | .ok _ => .ok (fmulD v (ddRound 15 10000))

/-- Responses of the /api/calculate endpoint (app1.py lines 1279-1335):
ok is the HTTP 200 success payload (co2 before the presentation-time
round(., 2)); badRequest the 400 {'error': ...} responses; userError the 400
{'success': False, 'error': str(e)} responses from ValueError/TypeError. -/
inductive ApiResult where
  | ok (category : String) (input_value : Dy) (co2 : Dy)
  | badRequest (error : String)
  | userError (error : String)
deriving DecidableEq

/-- app1.py lines 1288-1329, api_calculate: dispatch on the category string
(default "electricity"), with the transport calculator constructed from the
request's vehicle_type (default "car"); an unknown top-level category gets
400 'Invalid category'.  calc.validate_input(value) is called and then
calc.calculate(value), which validates again with the same outcome, so one
validation decides the branch. -/
def api_calculate (category : String) (vehicle_type : Option String)
    (value : Option Dy) : ApiResult :=
  match value with
  | none => .badRequest "Value is required"
  | some v =>
    if category = "electricity" then
      match elec_calculate v with
      | .ok r => .ok category v r
      | .error e => .userError e
    else if category = "transport" then
      match transport_calculate (vehicle_type.getD "car") v with
      | .ok r => .ok category v r
      | .error e => .userError e
    else if category = "water" then
      match water_calculate v with
      | .ok r => .ok category v r
      | .error e => .userError e
    else .badRequest "Invalid category"

/-- app1.py lines 1224-1247, the POST branch of the calculator route, given
the outcome of the history insert (saveOk).  Output: (error, result,
flashes).  A success flash is emitted only when the save succeeds; there is
no else branch, so a failed save produces no flash at all. -/
def calculator_post (s : List Char) (saveOk : Bool) :
    Option String × Option Dy × List (String × String) :=
  match validate_kwh_input s with
  | (false, msg, _) => (msg, none, [])
  | (true, _, some kwh) =>
    match elec_calculate kwh with
    | .error e => (some e, none, [])
    | .ok result =>
      if saveOk then (none, some result, [("Calculation saved successfully!", "success")])
      else (none, some result, [])
  | (true, _, none) => (none, none, [])

end App1

/-- The spec's closed category enumeration (section 3, CalculationRecord):
electricity, transport by vehicle type, water. -/
inductive SpecCategory where
  | electricity
  | transportCar
  | transportBus
  | transportTrain
  | transportBike
  | transportElectricCar
  | water
deriving DecidableEq

/-- The spec's EmissionFactorTable (section 4.2): the binary64 values of the
decimal factors 0.37, 0.21, 0.089, 0.041, 0.0, 0.05, 0.0015. -/
def specFactor : SpecCategory → Dy
  | .electricity => ddRound 37 100
  | .transportCar => ddRound 21 100
  | .transportBus => ddRound 89 1000
  | .transportTrain => ddRound 41 1000
  | .transportBike => (0, 0)
  | .transportElectricCar => ddRound 5 100
  | .water => ddRound 15 10000

/-- The code's per-category input validation, dispatched over the spec's
category enumeration. -/
def codeValidate : SpecCategory → Dy → Except String Bool
  | .electricity, v => App1.elec_validate_input (App1.elec_new []).1 v
  | .transportCar, v | .transportBus, v | .transportTrain, v
  | .transportBike, v | .transportElectricCar, v => App1.transport_validate_input v
  | .water, v => App1.water_validate_input v

/-- The code's calculate, dispatched over the spec's category enumeration
(the transport classes are constructed with the matching vehicle_type). -/
def codeCalc : SpecCategory → Dy → Except String Dy
  | .electricity, v => App1.elec_calculate v
  | .transportCar, v => App1.transport_calculate "car" v
  | .transportBus, v => App1.transport_calculate "bus" v
  | .transportTrain, v => App1.transport_calculate "train" v
  | .transportBike, v => App1.transport_calculate "bike" v
  | .transportElectricCar, v => App1.transport_calculate "electric_car" v
  | .water, v => App1.water_calculate v

/-- The four contractual user-facing rejection strings (spec section 6). -/
def fourMessages : List String :=
  ["Please enter a value.", "Please enter a valid number.",
   "Value must be greater than 0.", "Value cannot exceed 99,999."]

/-- The Validator contract exactly as the spec states it (section 4.1):
1 trim and empty check, 2 pattern check, 3 parse to binary64, 4 reject ≤ 0,
5 reject > 99999, 6 accept with the parsed value.  The parse step of the
spec cannot fail after step 2 (proved below), so the none branch mirrors
step 2's rejection. -/
def specValidate (s : List Char) : Bool × Option String × Option Dy :=
  if (pyStrip s).isEmpty then (false, some "Please enter a value.", none)
  else if !(matchNumber (pyStrip s)) then (false, some "Please enter a valid number.", none)
  else
    match pyFloat (pyStrip s) with
    | none => (false, some "Please enter a valid number.", none)
    | some kwh =>
      if dyLeB kwh (0, 0) then (false, some "Value must be greater than 0.", none)
      else if dyLtB (99999, 0) kwh then (false, some "Value cannot exceed 99,999.", none)
      else (true, none, some kwh)

/-- Rebase a dyadic to a smaller exponent: m · 2^x = (m · 2^(x-e)) · 2^e. -/
theorem dyVal_shift (m x e : Int) (h : e ≤ x) :
    ((m * 2 ^ (x - e).toNat : Int) : ℚ) * (2 : ℚ) ^ e = (m : ℚ) * (2 : ℚ) ^ x := by
  have h2 : (2 : ℚ) ≠ 0 := by norm_num
  have hx : (((x - e).toNat : Int)) = x - e := Int.toNat_of_nonneg (by omega)
  push_cast
  rw [mul_assoc, ← zpow_natCast (2 : ℚ) (x - e).toNat, hx, ← zpow_add₀ h2,
    (by ring : x - e + e = x)]

/-- The boolean dyadic comparison agrees with the rational order. -/
theorem dyLeB_iff (a b : Dy) : dyLeB a b = true ↔ dyVal a ≤ dyVal b := by
  have h2 : (0 : ℚ) < (2 : ℚ) ^ (min a.2 b.2) := by positivity
  have ha := dyVal_shift a.1 a.2 (min a.2 b.2) (min_le_left _ _)
  have hb := dyVal_shift b.1 b.2 (min a.2 b.2) (min_le_right _ _)
  rw [dyLeB, decide_eq_true_iff, dyVal, dyVal, ← ha, ← hb, mul_le_mul_right h2]
  exact (Int.cast_le).symm

/-- The strict boolean dyadic comparison agrees with the rational order. -/
theorem dyLtB_iff (a b : Dy) : dyLtB a b = true ↔ dyVal a < dyVal b := by
  have h2 : (0 : ℚ) < (2 : ℚ) ^ (min a.2 b.2) := by positivity
  have ha := dyVal_shift a.1 a.2 (min a.2 b.2) (min_le_left _ _)
  have hb := dyVal_shift b.1 b.2 (min a.2 b.2) (min_le_right _ _)
  rw [dyLtB, decide_eq_true_iff, dyVal, dyVal, ← ha, ← hb, mul_lt_mul_right h2]
  exact (Int.cast_lt).symm

/-- The dyadic (n, 0) denotes the integer n. -/
theorem dyVal_int (n : Int) : dyVal (n, 0) = (n : ℚ) := by
  simp [dyVal]

/-- A string of digits is consumed whole by takeDigits. -/
theorem takeDigits_all (cs : List Char) (h : allDigits cs = true) :
    takeDigits cs = (cs, []) := by
  induction cs with
  | nil => rfl
  | cons c t ih =>
    rw [allDigits, List.all_cons, Bool.and_eq_true] at h
    rw [takeDigits, if_pos h.1, ih h.2]

/-- A string matching \d+(?:\.\d+)? has an exact decimal value. -/
theorem matchUnsignedNum_parse (cs : List Char) (h : matchUnsignedNum cs = true) :
    (decUnsignedVal cs).isSome = true := by
  rw [matchUnsignedNum] at h
  rw [decUnsignedVal]
  rcases htd : takeDigits cs with ⟨ip, rest⟩
  rw [htd] at h
  cases rest with
  | nil =>
    simp only [Bool.not_eq_true'] at h
    simp [h]
  | cons c r =>
    simp only [Bool.and_eq_true, Bool.not_eq_true', decide_eq_true_iff] at h
    obtain ⟨⟨⟨hip, hdot⟩, hr⟩, hall⟩ := h
    subst hdot
    simp [takeDigits_all r hall, hip]

/-- Mapping a function over an option preserves isSome. -/
theorem isSomeOfMap {α β : Type} (f : α → β) (o : Option α) :
    (Option.map f o).isSome = o.isSome := by
  cases o <;> rfl

/-- A string matching the full validator pattern -?\d+(?:\.\d+)? parses to a
float: the model of float() cannot fail after the pattern check. -/
theorem matchNumber_pyFloat (cs : List Char) (h : matchNumber cs = true) :
    (pyFloat cs).isSome = true := by
  cases cs with
  | nil => exact absurd h (by decide)
  | cons c rest =>
    have h' : (if c = '-' then matchUnsignedNum rest
        else matchUnsignedNum (c :: rest)) = true := h
    show (if c = '-' then Option.map (fun p => ddRound (-p.1) p.2) (decUnsignedVal rest)
        else if c = '+' then Option.map (fun p => ddRound p.1 p.2) (decUnsignedVal rest)
        else Option.map (fun p => ddRound p.1 p.2) (decUnsignedVal (c :: rest))).isSome = true
    by_cases hc : c = '-'
    · rw [if_pos hc] at h'
      rw [if_pos hc, isSomeOfMap]
      exact matchUnsignedNum_parse rest h'
    · rw [if_neg hc] at h'
      by_cases hp : c = '+'
      · exfalso
        subst hp
        rw [matchUnsignedNum] at h'
        have htd : takeDigits ('+' :: rest) = ([], '+' :: rest) := by
          rw [takeDigits, if_neg (by decide)]
        rw [htd] at h'
        simp at h'
      · rw [if_neg hc, if_neg hp, isSomeOfMap]
        exact matchUnsignedNum_parse (c :: rest) h'

/-- Outcome inventory of app.py's validate_kwh_input: one of the four
rejections, or acceptance of a value that passed both range guards. -/
theorem validateShapeApp (s : List Char) :
    App.validate_kwh_input s = (false, some "Please enter a value.", none)
    ∨ App.validate_kwh_input s = (false, some "Please enter a valid number.", none)
    ∨ App.validate_kwh_input s = (false, some "Value must be greater than 0.", none)
    ∨ App.validate_kwh_input s = (false, some "Value cannot exceed 99,999.", none)
    ∨ ∃ v, App.validate_kwh_input s = (true, none, some v)
        ∧ dyLeB v (0, 0) = false ∧ dyLtB (99999, 0) v = false := by
  rw [App.validate_kwh_input]
  split
  · left; rfl
  · split
    · right; left; rfl
    · split
      · right; left; rfl
      · split
        · right; right; left; rfl
        · split
          · right; right; right; left; rfl
          · right; right; right; right
            exact ⟨_, rfl, by simp_all, by simp_all⟩

/-- Outcome inventory of app1.py's validate_kwh_input: the four rejections,
the screening rejection, or acceptance of a value that passed both range
guards. -/
theorem validateShapeApp1 (s : List Char) :
    App1.validate_kwh_input s = (false, some "Please enter a value.", none)
    ∨ App1.validate_kwh_input s = (false, some "Invalid input detected.", none)
    ∨ App1.validate_kwh_input s = (false, some "Please enter a valid number.", none)
    ∨ App1.validate_kwh_input s = (false, some "Value must be greater than 0.", none)
    ∨ App1.validate_kwh_input s = (false, some "Value cannot exceed 99,999.", none)
    ∨ ∃ v, App1.validate_kwh_input s = (true, none, some v)
        ∧ dyLeB v (0, 0) = false ∧ dyLtB (99999, 0) v = false := by
  rw [App1.validate_kwh_input]
  split
  · left; rfl
  · split
    · right; left; rfl
    · split
      · right; left; rfl
      · split
        · right; right; left; rfl
        · split
          · right; right; left; rfl
          · split
            · right; right; right; left; rfl
            · split
              · right; right; right; right; left; rfl
              · right; right; right; right; right
                exact ⟨_, rfl, by simp_all, by simp_all⟩

/-- The validators' combined empty test (falsy string or blank strip) is
equivalent to testing the trimmed string alone. -/
theorem emptyCondEq (s : List Char) :
    (s.isEmpty || (pyStrip s).isEmpty) = (pyStrip s).isEmpty := by
  cases s with
  | nil => rfl
  | cons c t => simp [List.isEmpty_cons]

/-- app.py's validator never reaches its except handler: replacing that
branch by a marker changes nothing. -/
theorem appValidateNoexc (s : List Char) :
    App.validate_kwh_input s = App.validate_kwh_input_noexc s := by
  rw [App.validate_kwh_input, App.validate_kwh_input_noexc]
  split
  · rfl
  · split
    · rfl
    · next h1 h2 =>
      have hm : matchNumber (pyStrip s) = true := by simp_all
      rcases ho : pyFloat (pyStrip s) with _ | v
      · have hs := matchNumber_pyFloat _ hm
        rw [ho] at hs
        simp at hs
      · rfl

/-- app1.py's validator never reaches its except handler. -/
theorem app1ValidateNoexc (s : List Char) :
    App1.validate_kwh_input s = App1.validate_kwh_input_noexc s := by
  rw [App1.validate_kwh_input, App1.validate_kwh_input_noexc]
  split
  · rfl
  · split
    · rfl
    · split
      · rfl
      · split
        · rfl
        · next h1 h2 h3 h4 =>
          have hm : matchNumber (pyStrip s) = true := by simp_all
          rcases ho : pyFloat (pyStrip s) with _ | v
          · have hs := matchNumber_pyFloat _ hm
            rw [ho] at hs
            simp at hs
          · rfl

/-- app.py's validator computes exactly the spec's six-step contract. -/
theorem appEqSpec (s : List Char) :
    App.validate_kwh_input s = specValidate s := by
  rw [App.validate_kwh_input, specValidate]
  simp only [emptyCondEq]

/-- When neither screening pattern fires on the trimmed input, app1.py's
validator also computes exactly the spec's contract. -/
theorem app1EqSpec (s : List Char) (hx : xssScreen (pyStrip s) = false)
    (hsql : sqlScreen (pyStrip s) = false) :
    App1.validate_kwh_input s = specValidate s := by
  rw [App1.validate_kwh_input, specValidate]
  simp only [emptyCondEq, hx, hsql]
  rfl

/-- When a screening pattern fires on a nonempty trimmed input, app1.py's
validator rejects with the fifth message. -/
theorem app1ScreenReject (s : List Char) (hne : (pyStrip s).isEmpty = false)
    (hor : xssScreen (pyStrip s) = true ∨ sqlScreen (pyStrip s) = true) :
    App1.validate_kwh_input s = (false, some "Invalid input detected.", none) := by
  rw [App1.validate_kwh_input]
  split
  · next hcond =>
    exfalso
    rw [emptyCondEq] at hcond
    simp [hne] at hcond
  · split
    · rfl
    · next hxf =>
      split
      · rfl
      · next hsf =>
        exfalso
        rcases hor with h | h
        · exact hxf h
        · exact hsf h

namespace App1

/-- Writing address r and reading it back gives the new list. -/
theorem storeGet_storeSet_self (st : Store) (r : Nat) (l : List HistRecord)
    (h : r < st.length) : storeGet (storeSet st r l) r = l := by
  induction st generalizing r with
  | nil => simp at h
  | cons x t ih =>
    cases r with
    | zero => rfl
    | succ r => exact ih r (by simpa using h)

/-- Writing address r leaves every other address unchanged. -/
theorem storeGet_storeSet_ne (st : Store) (r : Nat) (l : List HistRecord)
    (j : Nat) (h : j ≠ r) : storeGet (storeSet st r l) j = storeGet st j := by
  induction st generalizing r j with
  | nil => rfl
  | cons x t ih =>
    cases r with
    | zero =>
      cases j with
      | zero => exact absurd rfl h
      | succ j => rfl
    | succ r =>
      cases j with
      | zero => rfl
      | succ j => exact ih r j (by omega)

/-- Writing never changes the number of allocated lists. -/
theorem storeSet_length (st : Store) (r : Nat) (l : List HistRecord) :
    (storeSet st r l).length = st.length := by
  induction st generalizing r with
  | nil => rfl
  | cons x t ih =>
    cases r with
    | zero => rfl
    | succ r => simp [storeSet, ih r]

/-- A freshly appended list lives at the old length. -/
theorem storeGet_append_self (st : Store) (l : List HistRecord) :
    storeGet (st ++ [l]) st.length = l := by
  induction st with
  | nil => rfl
  | cons x t ih => simpa using ih

/-- Appending a list does not change any existing address. -/
theorem storeGet_append_ne (st : Store) (l : List HistRecord) (j : Nat)
    (h : j ≠ st.length) : storeGet (st ++ [l]) j = storeGet st j := by
  induction st generalizing j with
  | nil =>
    cases j with
    | zero => exact absurd rfl h
    | succ j => cases j <;> rfl
  | cons x t ih =>
    cases j with
    | zero => rfl
    | succ j => exact ih j (by simpa using h)

end App1

/-- A true dyLtB against an integer on the left gives a strict lower bound. -/
theorem dyLtB_left_true {n : Int} {v : Dy} (h : dyLtB (n, 0) v = true) :
    (n : ℚ) < dyVal v := by
  have hh := (dyLtB_iff (n, 0) v).mp h
  rwa [dyVal_int] at hh

/-- A false dyLtB against an integer on the left gives an upper bound. -/
theorem dyLtB_left_false {n : Int} {v : Dy} (h : dyLtB (n, 0) v = false) :
    dyVal v ≤ (n : ℚ) := by
  by_contra hc
  push_neg at hc
  have ht := (dyLtB_iff (n, 0) v).mpr (by rwa [dyVal_int])
  rw [h] at ht
  exact absurd ht (by simp)

/-- A true dyLtB against an integer on the right gives a strict upper bound. -/
theorem dyLtB_right_true {n : Int} {v : Dy} (h : dyLtB v (n, 0) = true) :
    dyVal v < (n : ℚ) := by
  have hh := (dyLtB_iff v (n, 0)).mp h
  rwa [dyVal_int] at hh

/-- A false dyLtB against an integer on the right gives a lower bound. -/
theorem dyLtB_right_false {n : Int} {v : Dy} (h : dyLtB v (n, 0) = false) :
    (n : ℚ) ≤ dyVal v := by
  by_contra hc
  push_neg at hc
  have ht := (dyLtB_iff v (n, 0)).mpr (by rwa [dyVal_int])
  rw [h] at ht
  exact absurd ht (by simp)

/-- A true dyLeB against an integer on the right gives an upper bound. -/
theorem dyLeB_right_true {n : Int} {v : Dy} (h : dyLeB v (n, 0) = true) :
    dyVal v ≤ (n : ℚ) := by
  have hh := (dyLeB_iff v (n, 0)).mp h
  rwa [dyVal_int] at hh

/-- A false dyLeB against an integer on the right gives a strict lower bound. -/
theorem dyLeB_right_false {n : Int} {v : Dy} (h : dyLeB v (n, 0) = false) :
    (n : ℚ) < dyVal v := by
  by_contra hc
  push_neg at hc
  have ht := (dyLeB_iff v (n, 0)).mpr (by rwa [dyVal_int])
  rw [h] at ht
  exact absurd ht (by simp)

/-- A value that passed both validator range guards lies in (0, 99999]. -/
theorem acceptedBounds {v : Dy} (g1 : dyLeB v (0, 0) = false)
    (g2 : dyLtB (99999, 0) v = false) : 0 < dyVal v ∧ dyVal v ≤ 99999 := by
  have h1 := dyLeB_right_false g1
  have h2 := dyLtB_left_false g2
  push_cast at h1 h2
  exact ⟨h1, h2⟩

/-- The validator outcome shapes compressed to rejected/accepted. -/
theorem appShapeSimple (s : List Char) :
    (∃ m, App.validate_kwh_input s = (false, some m, none))
    ∨ ∃ v, App.validate_kwh_input s = (true, none, some v)
        ∧ dyLeB v (0, 0) = false ∧ dyLtB (99999, 0) v = false := by
  rcases validateShapeApp s with h | h | h | h | h
  exacts [Or.inl ⟨_, h⟩, Or.inl ⟨_, h⟩, Or.inl ⟨_, h⟩, Or.inl ⟨_, h⟩, Or.inr h]

/-- The app1 validator outcome shapes compressed to rejected/accepted. -/
theorem app1ShapeSimple (s : List Char) :
    (∃ m, App1.validate_kwh_input s = (false, some m, none))
    ∨ ∃ v, App1.validate_kwh_input s = (true, none, some v)
        ∧ dyLeB v (0, 0) = false ∧ dyLtB (99999, 0) v = false := by
  rcases validateShapeApp1 s with h | h | h | h | h | h
  exacts [Or.inl ⟨_, h⟩, Or.inl ⟨_, h⟩, Or.inl ⟨_, h⟩, Or.inl ⟨_, h⟩, Or.inl ⟨_, h⟩,
    Or.inr h]

/-- Success flag, absent message and present value coincide, and an accepted
value lies in (0, 99999]. -/
theorem outcomeProps (out : Bool × Option String × Option Dy)
    (h : (∃ m, out = (false, some m, none))
      ∨ ∃ v, out = (true, none, some v)
          ∧ dyLeB v (0, 0) = false ∧ dyLtB (99999, 0) v = false) :
    (out.1 = true ↔ out.2.1 = none) ∧ (out.1 = true ↔ (out.2.2).isSome = true)
    ∧ ∀ v, out.2.2 = some v → 0 < dyVal v ∧ dyVal v ≤ 99999 := by
  rcases h with ⟨m, rfl⟩ | ⟨v, rfl, g1, g2⟩
  · simp
  · refine ⟨by simp, by simp, ?_⟩
    intro w hw
    simp only [Option.some.injEq] at hw
    subst hw
    exact acceptedBounds g1 g2

/-- C1 (corrected).  app.py's validate_kwh_input applies the spec's steps in
the spec's order with short-circuiting on every raw input string: trim and
empty check ("Please enter a value."), plain-decimal pattern check ("Please
enter a valid number."), binary64 parse, ≤ 0 check ("Value must be greater
than 0."), > 99999 check ("Value cannot exceed 99,999."), else accept with
exactly the parsed value.  app1.py's validate_kwh_input does the same except
that between the trim and the pattern check it first rejects any trimmed
input matching its XSS or SQL screening patterns with "Invalid input
detected.". -/
theorem c1_validator_spec_order (s : List Char) :
    App.validate_kwh_input s = specValidate s
    ∧ (xssScreen (pyStrip s) = false → sqlScreen (pyStrip s) = false →
        App1.validate_kwh_input s = specValidate s)
    ∧ ((pyStrip s).isEmpty = false →
        xssScreen (pyStrip s) = true ∨ sqlScreen (pyStrip s) = true →
        App1.validate_kwh_input s = (false, some "Invalid input detected.", none)) :=
  ⟨appEqSpec s, fun hx hs => app1EqSpec s hx hs, fun hne hor => app1ScreenReject s hne hor⟩

/-- C1 counterexample: the input "drop" contains letters only, so by the
claimed processing order it must be rejected with "Please enter a valid
number.", but app1.py's validator rejects it with "Invalid input detected."
(its SQL screen fires first), so the claim is false for app1.py's
validator. -/
theorem c1_counterexample :
    App1.validate_kwh_input ['d', 'r', 'o', 'p'] ≠ specValidate ['d', 'r', 'o', 'p'] := by
  decide

/-- C1 witness: the amended theorem applied at "100" (no screen fires) and at
"drop" (the SQL screen fires). -/
theorem c1_witness :
    App1.validate_kwh_input ['1', '0', '0'] = specValidate ['1', '0', '0']
    ∧ App1.validate_kwh_input ['d', 'r', 'o', 'p']
        = (false, some "Invalid input detected.", none) :=
  ⟨(c1_validator_spec_order ['1', '0', '0']).2.1 (by decide) (by decide),
   (c1_validator_spec_order ['d', 'r', 'o', 'p']).2.2 (by decide) (Or.inr (by decide))⟩

/-- C3 (corrected).  Every rejection message of app.py's validator is one of
the four contractual strings; every rejection message of app1.py's validator
is one of the four contractual strings or the fifth string "Invalid input
detected." produced by its screening steps. -/
theorem c3_rejection_messages (s : List Char) (m : String) :
    ((App.validate_kwh_input s).2.1 = some m → m ∈ fourMessages)
    ∧ ((App1.validate_kwh_input s).2.1 = some m →
        m ∈ fourMessages ∨ m = "Invalid input detected.") := by
  constructor
  · intro h
    rcases validateShapeApp s with h1 | h1 | h1 | h1 | ⟨v, h1, _, _⟩ <;>
      rw [h1] at h <;> simp_all [fourMessages]
  · intro h
    rcases validateShapeApp1 s with h1 | h1 | h1 | h1 | h1 | ⟨v, h1, _, _⟩ <;>
      rw [h1] at h <;> simp_all [fourMessages]

/-- C3 counterexample: on input "drop", app1.py's validator rejects with
"Invalid input detected.", which is not among the four contractual
strings. -/
theorem c3_counterexample :
    (App1.validate_kwh_input ['d', 'r', 'o', 'p']).2.1 = some "Invalid input detected."
    ∧ "Invalid input detected." ∉ fourMessages := by
  constructor
  · decide
  · decide

/-- C3 witness: the amended theorem applied at the empty input (app.py side)
and at "drop" (app1.py side). -/
theorem c3_witness :
    "Please enter a value." ∈ fourMessages
    ∧ ("Invalid input detected." ∈ fourMessages
        ∨ "Invalid input detected." = "Invalid input detected.") :=
  ⟨(c3_rejection_messages [] "Please enter a value.").1 (by decide),
   (c3_rejection_messages ['d', 'r', 'o', 'p'] "Invalid input detected.").2 (by decide)⟩

/-- C4 (confirmed).  For both validators and every input string: the success
flag is true iff the error message is absent, iff a value is returned, and
every returned value v satisfies 0 < v ≤ 99999 (as the real number dyVal v
of the returned float). -/
theorem c4_outcome_invariant (s : List Char) :
    ((App.validate_kwh_input s).1 = true ↔ (App.validate_kwh_input s).2.1 = none)
    ∧ ((App.validate_kwh_input s).1 = true ↔
        ((App.validate_kwh_input s).2.2).isSome = true)
    ∧ (∀ v, (App.validate_kwh_input s).2.2 = some v → 0 < dyVal v ∧ dyVal v ≤ 99999)
    ∧ ((App1.validate_kwh_input s).1 = true ↔ (App1.validate_kwh_input s).2.1 = none)
    ∧ ((App1.validate_kwh_input s).1 = true ↔
        ((App1.validate_kwh_input s).2.2).isSome = true)
    ∧ (∀ v, (App1.validate_kwh_input s).2.2 = some v → 0 < dyVal v ∧ dyVal v ≤ 99999) := by
  obtain ⟨a1, a2, a3⟩ := outcomeProps _ (appShapeSimple s)
  obtain ⟨b1, b2, b3⟩ := outcomeProps _ (app1ShapeSimple s)
  exact ⟨a1, a2, a3, b1, b2, b3⟩

set_option maxRecDepth 40000 in
/-- C4 witness: the theorem applied at "100", whose accepted value is the
float 100 = 25 · 2^2. -/
theorem c4_witness : 0 < dyVal (25, 2) ∧ dyVal (25, 2) ≤ 99999 :=
  (c4_outcome_invariant ['1', '0', '0']).2.2.1 (25, 2) (by decide)

/-- C9 (confirmed).  Both validators are total functions of the input string
returning a (flag, message, value) triple, and their except handlers for a
failed float conversion are unreachable: replacing that branch's output by a
marker changes neither validator on any input, because every string passing
the pattern check parses (matchNumber_pyFloat). -/
theorem c9_parse_branch_unreachable (s : List Char) :
    App.validate_kwh_input s = App.validate_kwh_input_noexc s
    ∧ App1.validate_kwh_input s = App1.validate_kwh_input_noexc s :=
  ⟨appValidateNoexc s, app1ValidateNoexc s⟩

/-- C2 (corrected).  An unrecognized top-level category makes /api/calculate
answer 400 'Invalid category' before any computation; but an unrecognized
transport vehicle_type is NOT rejected: the factor lookup silently falls
back to the car factor 0.21 and a result is computed.  No ConfigurationError
exists in the code. -/
theorem c2_category_dispatch :
    (∀ (category : String) (vt : Option String) (v : Dy),
      ¬(category = "electricity" ∨ category = "transport" ∨ category = "water") →
      App1.api_calculate category vt (some v) = App1.ApiResult.badRequest "Invalid category")
    ∧ (∀ t : String, App1.VEHICLE_FACTORS t = none →
        App1.transportFactor t = ddRound 21 100) := by
  constructor
  · intro c vt v h
    push_neg at h
    obtain ⟨h1, h2, h3⟩ := h
    simp only [App1.api_calculate, if_neg h1, if_neg h2, if_neg h3]
  · intro t h
    rw [App1.transportFactor, h]
    simp only [Option.getD]

set_option maxRecDepth 200000 in
/-- C2 counterexample: the category pair (transport, rocket) is outside the
closed enumeration, yet the Calculator does not fail: it silently computes
100 km · 0.21 (the car default) = 21.0 kg and answers success. -/
theorem c2_counterexample :
    App1.api_calculate "transport" (some "rocket") (some (25, 2)) =
      App1.ApiResult.ok "transport" (25, 2) (21, 0) := by
  decide

/-- C2 witness: the amended theorem applied at category "food" and at
vehicle type "rocket". -/
theorem c2_witness :
    App1.api_calculate "food" none (some (1, 0)) = App1.ApiResult.badRequest "Invalid category"
    ∧ App1.transportFactor "rocket" = ddRound 21 100 :=
  ⟨c2_category_dispatch.1 "food" none (1, 0) (by decide),
   c2_category_dispatch.2 "rocket" (by decide)⟩

/-- C5 (confirmed).  For every category of the spec's enumeration and every
value accepted by that category's input validation, the code's calculate
returns exactly the binary64 product of the value with the spec's table
factor for that category; app.py's calculate_co2_emission likewise is the
binary64 product with the spec's electricity factor. -/
theorem c5_factor_multiplication (c : SpecCategory) (v : Dy)
    (h : codeValidate c v = .ok true) :
    codeCalc c v = .ok (fmulD v (specFactor c))
    ∧ App.calculate_co2_emission v = fmulD v (specFactor SpecCategory.electricity) := by
  refine ⟨?_, rfl⟩
  cases c
  case electricity =>
    have h' : App1.elec_validate_input (App1.elec_new []).1 v = .ok true := h
    show App1.elec_calculate v = _
    simp only [App1.elec_calculate, App1.elec_calculate_st, h']
    rfl
  case transportCar =>
    have h' : App1.transport_validate_input v = .ok true := h
    show App1.transport_calculate "car" v = .ok (fmulD v (ddRound 21 100))
    have hf : App1.transportFactor "car" = ddRound 21 100 := rfl
    simp only [App1.transport_calculate, h', hf]
  case transportBus =>
    have h' : App1.transport_validate_input v = .ok true := h
    show App1.transport_calculate "bus" v = .ok (fmulD v (ddRound 89 1000))
    have hf : App1.transportFactor "bus" = ddRound 89 1000 := rfl
    simp only [App1.transport_calculate, h', hf]
  case transportTrain =>
    have h' : App1.transport_validate_input v = .ok true := h
    show App1.transport_calculate "train" v = .ok (fmulD v (ddRound 41 1000))
    have hf : App1.transportFactor "train" = ddRound 41 1000 := rfl
    simp only [App1.transport_calculate, h', hf]
  case transportBike =>
    have h' : App1.transport_validate_input v = .ok true := h
    show App1.transport_calculate "bike" v = _
    simp only [App1.transport_calculate, h']
    rfl
  case transportElectricCar =>
    have h' : App1.transport_validate_input v = .ok true := h
    show App1.transport_calculate "electric_car" v = .ok (fmulD v (ddRound 5 100))
    have hf : App1.transportFactor "electric_car" = ddRound 5 100 := rfl
    simp only [App1.transport_calculate, h', hf]
  case water =>
    have h' : App1.water_validate_input v = .ok true := h
    show App1.water_calculate v = _
    simp only [App1.water_calculate, h']
    rfl

/-- C5 witness: the theorem applied to water with volume 1 liter. -/
theorem c5_witness :
    codeCalc SpecCategory.water (1, 0) = .ok (fmulD (1, 0) (specFactor SpecCategory.water))
    ∧ App.calculate_co2_emission (1, 0)
        = fmulD (1, 0) (specFactor SpecCategory.electricity) :=
  c5_factor_multiplication SpecCategory.water (1, 0) (by decide)

/-- C6 (confirmed).  The transport calculator accepts exactly the values v
with 0 ≤ v ≤ 10000 (zero distance allowed) and the water calculator accepts
exactly the values v with 0 < v ≤ 100000 (zero rejected); everything else is
a ValueError, a user-input error. -/
theorem c6_per_category_bounds (v : Dy) :
    (App1.transport_validate_input v = .ok true ↔ 0 ≤ dyVal v ∧ dyVal v ≤ 10000)
    ∧ (App1.water_validate_input v = .ok true ↔ 0 < dyVal v ∧ dyVal v ≤ 100000) := by
  constructor
  · rw [App1.transport_validate_input]
    split
    · next hg =>
      constructor
      · intro hh
        exact absurd hh (by simp)
      · rintro ⟨h0, _⟩
        have hlt := dyLtB_right_true hg
        push_cast at hlt
        exact absurd hlt (not_lt.mpr h0)
    · next hg =>
      split
      · next hg2 =>
        constructor
        · intro hh
          exact absurd hh (by simp)
        · rintro ⟨_, hle⟩
          have hlt := dyLtB_left_true hg2
          push_cast at hlt
          exact absurd hlt (not_lt.mpr hle)
      · next hg2 =>
        have hgf : dyLtB v (0, 0) = false := by
          revert hg
          cases dyLtB v (0, 0) <;> simp
        have hgf2 : dyLtB (10000, 0) v = false := by
          revert hg2
          cases dyLtB (10000, 0) v <;> simp
        have h0 := dyLtB_right_false hgf
        have h1 := dyLtB_left_false hgf2
        push_cast at h0 h1
        exact ⟨fun _ => ⟨h0, h1⟩, fun _ => rfl⟩
  · rw [App1.water_validate_input]
    split
    · next hg =>
      constructor
      · intro hh
        exact absurd hh (by simp)
      · rintro ⟨h0, _⟩
        have hle := dyLeB_right_true hg
        push_cast at hle
        exact absurd h0 (not_lt.mpr hle)
    · next hg =>
      split
      · next hg2 =>
        constructor
        · intro hh
          exact absurd hh (by simp)
        · rintro ⟨_, hle⟩
          have hlt := dyLtB_left_true hg2
          push_cast at hlt
          exact absurd hlt (not_lt.mpr hle)
      · next hg2 =>
        have hgf : dyLeB v (0, 0) = false := by
          revert hg
          cases dyLeB v (0, 0) <;> simp
        have hgf2 : dyLtB (100000, 0) v = false := by
          revert hg2
          cases dyLtB (100000, 0) v <;> simp
        have h0 := dyLeB_right_false hgf
        have h1 := dyLtB_left_false hgf2
        push_cast at h0 h1
        exact ⟨fun _ => ⟨h0, h1⟩, fun _ => rfl⟩

set_option maxRecDepth 80000 in
/-- C8 (confirmed).  Exact binary64 results: electricity(100) is exactly the
float 37.0 = (37, 0); electricity(123.45) is exactly the float written
45.6765, namely 6428395886862139 · 2^-47, which is ddRound 456765 10000;
water(1000) is exactly the float 1.5 = 3 · 2^-1.  Inputs are the floats of
the decimal literals 100, 123.45 and 1000. -/
theorem c8_exact_results :
    App1.elec_calculate (ddRound 100 1) = .ok (37, 0)
    ∧ App1.elec_calculate (ddRound 12345 100) = .ok (6428395886862139, -47)
    ∧ ddRound 456765 10000 = (6428395886862139, -47)
    ∧ App1.water_calculate (ddRound 1000 1) = .ok (3, -1)
    ∧ dyVal (37, 0) = 37 ∧ dyVal (3, -1) = 3 / 2 := by
  refine ⟨by decide, by decide, by decide, by decide, ?_, ?_⟩
  · rw [dyVal_int]
    norm_num
  · rw [dyVal, zpow_neg, zpow_one]
    norm_num

/-- C7 (corrected).  For every accepted input, when the history write fails
(saveOk = false) both calculator routes still show the computed result and
the request succeeds (no error); app.py's route informs the user with the
warning flash "Calculation completed but could not be saved to history.",
but app1.py's route emits no flash at all, so its caller is NOT informed
that the result was not saved. -/
theorem c7_partial_failure (s : List Char) (v : Dy) :
    (App.validate_kwh_input s = (true, none, some v) →
      App.calculator_post s false =
        (none, some (fmulD v EMISSION_FACTOR_KWH),
         [("Calculation completed but could not be saved to history.", "warning")]))
    ∧ (App1.validate_kwh_input s = (true, none, some v) →
      App1.calculator_post s false = (none, some (fmulD v (ddRound 37 100)), [])) := by
  constructor
  · intro h
    simp only [App.calculator_post, h, App.calculate_co2_emission]
    rfl
  · intro h
    rcases validateShapeApp1 s with h1 | h1 | h1 | h1 | h1 | ⟨w, hw, g1, g2⟩
    · rw [h] at h1
      simp at h1
    · rw [h] at h1
      simp at h1
    · rw [h] at h1
      simp at h1
    · rw [h] at h1
      simp at h1
    · rw [h] at h1
      simp at h1
    · rw [h] at hw
      simp only [Prod.mk.injEq, Option.some.injEq, true_and] at hw
      subst hw
      have hval : App1.elec_validate_input (App1.elec_new []).1 v = .ok true := by
        simp only [App1.elec_validate_input, App1.elec_new, g1, g2]
        rfl
      have hcalc : App1.elec_calculate v = .ok (fmulD v (ddRound 37 100)) := by
        simp only [App1.elec_calculate, App1.elec_calculate_st, hval]
        rfl
      simp only [App1.calculator_post, h, hcalc]
      rfl

/-- C7 counterexample: submitting "100" with a failing history write in
app1.py shows the result 37.0 but produces an empty flash list: the caller
is never informed that the result was not saved, contradicting the claimed
partial-failure policy for app1.py's route. -/
theorem c7_counterexample :
    App1.calculator_post ['1', '0', '0'] false = (none, some (37, 0), []) := by
  decide

/-- C7 witness: the amended theorem applied at input "100" (accepted value
25 · 2^2 = 100). -/
theorem c7_witness :
    App.calculator_post ['1', '0', '0'] false =
      (none, some (fmulD (25, 2) EMISSION_FACTOR_KWH),
       [("Calculation completed but could not be saved to history.", "warning")])
    ∧ App1.calculator_post ['1', '0', '0'] false
        = (none, some (fmulD (25, 2) (ddRound 37 100)), []) :=
  ⟨(c7_partial_failure ['1', '0', '0'] (25, 2)).1 (by decide),
   (c7_partial_failure ['1', '0', '0'] (25, 2)).2 (by decide)⟩

/-- C10 (confirmed).  A successful calculate appends exactly one record
(input, output, timestamp, calculator type) to the instance's own history
list and touches no other list in the heap (the instance's other fields are
immutable in the embedding, as in the source, where only the history list is
ever mutated); get_history returns a fresh copy at a new address, with the
same contents, and mutating that copy never changes the instance's stored
history. -/
theorem c10_history_append_and_copy (c : App1.ElecObj) (st : App1.Store) (v : Dy)
    (now : Nat) (hlt : c.histRef < st.length)
    (hok : App1.elec_validate_input c v = .ok true) :
    (∃ st', App1.elec_calculate_st c st v now = .ok (fmulD v c.emission_factor, st')
      ∧ App1.storeGet st' c.histRef = App1.storeGet st c.histRef
          ++ [⟨v, fmulD v c.emission_factor, now, "ElectricityEmissionCalculator"⟩]
      ∧ (∀ j, j ≠ c.histRef → App1.storeGet st' j = App1.storeGet st j)
      ∧ st'.length = st.length)
    ∧ (App1.get_history c st).1 ≠ c.histRef
    ∧ App1.storeGet (App1.get_history c st).2 (App1.get_history c st).1
        = App1.storeGet st c.histRef
    ∧ ∀ l, App1.storeGet
        (App1.storeSet (App1.get_history c st).2 (App1.get_history c st).1 l) c.histRef
        = App1.storeGet st c.histRef := by
  refine ⟨⟨App1.storeSet st c.histRef (App1.storeGet st c.histRef
      ++ [⟨v, fmulD v c.emission_factor, now, "ElectricityEmissionCalculator"⟩]),
      ?_, ?_, ?_, ?_⟩, ?_, ?_, ?_⟩
  · simp only [App1.elec_calculate_st, hok]
  · exact App1.storeGet_storeSet_self st c.histRef _ hlt
  · exact fun j hj => App1.storeGet_storeSet_ne st c.histRef _ j hj
  · exact App1.storeSet_length st c.histRef _
  · simp only [App1.get_history]
    omega
  · simp only [App1.get_history]
    exact App1.storeGet_append_self st _
  · intro l
    simp only [App1.get_history]
    rw [App1.storeGet_storeSet_ne _ _ _ _ (by omega),
      App1.storeGet_append_ne _ _ _ (by omega)]

/-- C10 witness: the theorem applied to a fresh calculator (factor 0.37,
history at address 0) over a one-list heap, with input 1.0 at time 5. -/
theorem c10_witness :
    ∃ st', App1.elec_calculate_st ⟨ddRound 37 100, (99999, 0), (0, 0), 0⟩ [[]] (1, 0) 5
        = .ok (fmulD (1, 0) (ddRound 37 100), st')
      ∧ App1.storeGet st' 0 = App1.storeGet [[]] 0
          ++ [⟨(1, 0), fmulD (1, 0) (ddRound 37 100), 5, "ElectricityEmissionCalculator"⟩]
      ∧ (∀ j, j ≠ 0 → App1.storeGet st' j = App1.storeGet [[]] j)
      ∧ st'.length = ([[]] : App1.Store).length :=
  (c10_history_append_and_copy ⟨ddRound 37 100, (99999, 0), (0, 0), 0⟩ [[]] (1, 0) 5
    (by decide) (by decide)).1
